import Mathlib

/-!
Verification of the groovesheet job-orchestration layer.

Shallow embedding of the orchestration core:
  * `Backend` — `app/services/processing_service.py` (`ProcessingJob`,
    `ProcessingService._process_job`, `_save_job_state`);
  * `Storage` — `app/services/job_storage.py` (`JobStorage.save_job` /
    `load_job`) together with `ProcessingJob.to_dict` / `from_dict`;
  * `Worker` — `worker-service/worker.py` (`process_job`,
    `update_job_status`, the Pub/Sub `callback`);
  * `WorkerLocal` — `worker-service/worker_local.py` (`process_job`).

External collaborators (Demucs separation, Omnizart/AnNOTEator
transcription, MusicXML rendering) are opaque oracles: each call either
returns an artifact reference or raises with an error text.  Wall-clock
reads (`datetime.now()` / `time.time()`) are modelled by a `Nat` clock
threaded through the run; timestamps round-trip through `isoformat` /
`fromisoformat` losslessly, so they are kept as plain numbers.
-/

namespace GrooveSheet

namespace Backend

/-- `ProcessingStatus` enum from `app/models/schemas.py`. -/
inductive ProcessingStatus
  | pending
  | separating
  | transcribing
  | generating_sheet
  | completed
  | failed
deriving DecidableEq, Repr

/-- String value of each enum member (`ProcessingStatus(str, Enum)`). -/
def statusValue : ProcessingStatus → String
  | .pending => "pending"
  | .separating => "separating"
  | .transcribing => "transcribing"
  | .generating_sheet => "generating_sheet"
  | .completed => "completed"
  | .failed => "failed"

/-- Inverse of `statusValue`: the `ProcessingStatus(s)` constructor, which
raises (here: `none`) on an unknown string. -/
def statusOfString : String → Option ProcessingStatus
  | "pending" => some .pending
  | "separating" => some .separating
  | "transcribing" => some .transcribing
  | "generating_sheet" => some .generating_sheet
  | "completed" => some .completed
  | "failed" => some .failed
  | _ => none

/-- `TranscriptionResult` pydantic model.  `processing_time` is a JSON
number; it is modelled as a rational since no arithmetic is done on it. -/
structure TranscriptionResult where
  job_id : String
  musicxml_path : String
  midi_path : String
  drum_audio_path : String
  processing_time : ℚ
deriving DecidableEq, Repr

/-- `ProcessingJob`: the in-memory job record. -/
structure ProcessingJob where
  job_id : String
  filename : String
  file_path : String
  status : ProcessingStatus
  progress : Int
  message : String
  created_at : Nat
  updated_at : Nat
  result : Option TranscriptionResult
  error : Option String
deriving DecidableEq, Repr

/-- `ProcessingJob.__init__`: a freshly created job. -/
def mkProcessingJob (job_id filename file_path : String) (now : Nat) :
    ProcessingJob :=
  { job_id := job_id
    filename := filename
    file_path := file_path
    status := .pending
    progress := 0
    message := "Job created"
    created_at := now
    updated_at := now
    result := none
    error := none }

/-- Environment of one `_process_job` run: collaborator oracles, the
configuration flags consulted, whether the uploaded input file exists,
and an oracle giving the outcome of each successive `JobStorage.save_job`
call (indexed by call number; `save_job` returns a bool and never
raises). -/
structure Env where
  models_ready : Bool
  separate_drums : Except String String
  transcribe_drums : Except String String
  midi_to_musicxml : Except String String
  cleanup_after_processing : Bool
  input_exists : Bool
  save_ok : Nat → Bool

/-- Observable state threaded through a `_process_job` run.
`attempted` records the snapshot handed to every `save_job` call in
order; `persisted` keeps only the snapshots whose save succeeded.
`calls` lists the external collaborator invocations in order. -/
structure ExecState where
  job : ProcessingJob
  clock : Nat
  saves : Nat
  attempted : List ProcessingJob
  persisted : List ProcessingJob
  calls : List String
  inputRemoved : Bool
deriving DecidableEq, Repr

/-- `_save_job_state`: stamp `updated_at = datetime.now()` and call
`JobStorage.save_job`; the boolean result of `save_job` is ignored by
the caller. -/
def save_job_state (env : Env) (s : ExecState) (j : ProcessingJob) :
    ExecState :=
  let j2 := { j with updated_at := s.clock }
  let ok := env.save_ok s.saves
  { s with
      job := j2
      clock := s.clock + 1
      saves := s.saves + 1
      attempted := s.attempted ++ [j2]
      persisted := if ok then s.persisted ++ [j2] else s.persisted }

/-- The `except` branch of `_process_job`: set `status = FAILED`, record
the error text, persist, then remove the input file (unconditionally,
but only if it exists). -/
def fail_job (env : Env) (s : ExecState) (msg : String) : ExecState :=
  let j := { s.job with
               status := ProcessingStatus.failed
               message := "Processing failed: " ++ msg
               error := some msg }
  let s2 := save_job_state env s j
  if env.input_exists then { s2 with inputRemoved := true } else s2

/-- `ProcessingService._process_job`: drive one job through the three
stages, persisting status/progress checkpoints before and after each
collaborator call. -/
def process_job (env : Env) (job : ProcessingJob) (clock : Nat) :
    ExecState :=
  let s : ExecState :=
    { job := job, clock := clock, saves := 0, attempted := [],
      persisted := [], calls := [], inputRemoved := false }
  if env.models_ready = false then
    fail_job env s "Models not initialized"
  else
    -- Step 1: separate drum track
    let s := save_job_state env s
      { s.job with
          status := ProcessingStatus.separating
          progress := 10
          message := "Separating drum track from audio..." }
    let s := { s with calls := s.calls ++ ["separate_drums"] }
    match env.separate_drums with
    | .error e => fail_job env s e
    | .ok drum_audio_path =>
      let s := save_job_state env s
        { s.job with
            progress := 40
            message := "Drum track separated successfully" }
      -- Step 2: transcribe drums to MIDI
      let s := save_job_state env s
        { s.job with
            status := ProcessingStatus.transcribing
            progress := 50
            message := "Transcribing drum notation..." }
      let s := { s with calls := s.calls ++ ["transcribe_drums"] }
      match env.transcribe_drums with
      | .error e => fail_job env s e
      | .ok midi_path =>
        let s := save_job_state env s
          { s.job with
              progress := 70
              message := "Drum transcription complete" }
        -- Step 3: generate MusicXML
        let s := save_job_state env s
          { s.job with
              status := ProcessingStatus.generating_sheet
              progress := 80
              message := "Generating MusicXML notation..." }
        let s := { s with calls := s.calls ++ ["midi_to_musicxml"] }
        match env.midi_to_musicxml with
        | .error e => fail_job env s e
        | .ok musicxml_path =>
          let s := save_job_state env s
            { s.job with
                progress := 95
                message := "MusicXML notation generated" }
          -- Complete: status, progress, message set, then result built
          let s := save_job_state env s
            { s.job with
                status := ProcessingStatus.completed
                progress := 100
                message := "Processing completed"
                result := some
                  { job_id := s.job.job_id
                    musicxml_path := musicxml_path
                    midi_path := midi_path
                    drum_audio_path := drum_audio_path
                    processing_time := (s.clock : ℚ) - (clock : ℚ) } }
          -- Cleanup original file only if configured
          if env.cleanup_after_processing ∧ env.input_exists then
            { s with inputRemoved := true }
          else
            s

end Backend

namespace Storage

open Backend

/-- The dictionary produced by `ProcessingJob.to_dict`: the flat
self-describing record persisted by `JobStorage`.  `status` is the enum's
string value; `created_at`/`updated_at` are isoformat timestamps
(modelled as numbers, since isoformat round-trips losslessly); `result`
is the nested `TranscriptionResult.dict()` or null; `error` a string or
null.  The JSON text layer (`json.dumps`/`json.loads`) is the identity
on such flat records and is not modelled separately. -/
structure JobDict where
  job_id : String
  filename : String
  file_path : String
  status : String
  progress : Int
  message : String
  created_at : Nat
  updated_at : Nat
  result : Option TranscriptionResult
  error : Option String
deriving DecidableEq, Repr

/-- `ProcessingJob.to_dict`. -/
def to_dict (j : ProcessingJob) : JobDict :=
  { job_id := j.job_id
    filename := j.filename
    file_path := j.file_path
    status := statusValue j.status
    progress := j.progress
    message := j.message
    created_at := j.created_at
    updated_at := j.updated_at
    result := j.result
    error := j.error }

/-- `ProcessingJob.from_dict`: rebuild the job from a stored dict.
`ProcessingStatus(data['status'])` raises on an unknown status string,
modelled by `none`. -/
def from_dict (d : JobDict) : Option ProcessingJob :=
  match statusOfString d.status with
  | none => none
  | some st =>
    let job := mkProcessingJob d.job_id d.filename d.file_path d.created_at
    some { job with
             status := st
             progress := d.progress
             message := d.message
             created_at := d.created_at
             updated_at := d.updated_at
             error := d.error
             result := d.result }

/-- A `JobStorage` instance: the configuration flag choosing the backend
plus the contents of both stores (remote bucket blobs and local files),
each a last-write-wins association list from key to stored record. -/
structure JobStorage where
  use_cloud_storage : Bool
  bucket : List (String × JobDict)
  localFiles : List (String × JobDict)
  storage_dir : String
deriving Repr

/-- `JobStorage._get_job_key`: the GCS blob key for a job. -/
def get_job_key (job_id : String) : String :=
  "jobs/" ++ job_id ++ ".json"

/-- `JobStorage._get_local_path`: the local file path for a job. -/
def get_local_path (st : JobStorage) (job_id : String) : String :=
  st.storage_dir ++ "/" ++ job_id ++ ".json"

/-- Last-write-wins write into an association-list store. -/
def putKV (m : List (String × JobDict)) (k : String) (v : JobDict) :
    List (String × JobDict) :=
  (k, v) :: m

/-- Read from an association-list store (most recent write wins). -/
def getKV (m : List (String × JobDict)) (k : String) : Option JobDict :=
  (m.find? (fun p => p.1 = k)).map Prod.snd

/-- `JobStorage.save_job`: stamps `updated_at = datetime.now()` on the
passed record (in place, in the source), serializes it and writes it to
the backend selected by `use_cloud_storage`, returning `true` on
success. -/
def save_job (st : JobStorage) (job_id : String) (d : JobDict)
    (now : Nat) : JobStorage × Bool :=
  let d2 := { d with updated_at := now }
  if st.use_cloud_storage then
    ({ st with bucket := putKV st.bucket (get_job_key job_id) d2 }, true)
  else
    ({ st with
         localFiles := putKV st.localFiles (get_local_path st job_id) d2 },
     true)

/-- `JobStorage.load_job`: read the stored record back from the backend
selected by `use_cloud_storage`; `none` when absent. -/
def load_job (st : JobStorage) (job_id : String) : Option JobDict :=
  if st.use_cloud_storage then
    getKV st.bucket (get_job_key job_id)
  else
    getKV st.localFiles (get_local_path st job_id)

end Storage

namespace Worker

/-- The worker-service job descriptor (the `jobs/{id}/metadata.json`
dict).  `update_job_status` reads it back as a plain dict, so fields it
did not write may be absent (`Option`).  Descriptor fields other than
these are carried through unchanged by the worker and are irrelevant to
the claims, so they are not modelled. -/
structure WMeta where
  job_id : String
  filename : Option String
  status : Option String
  progress : Option Int
  error : Option String
deriving DecidableEq, Repr

/-- The per-job slice of the GCS bucket seen by `worker.py`:
`jobs/{id}/metadata.json` (with a flag saying whether its text parses as
JSON — `json.loads` raises otherwise), `jobs/{id}/input.mp3`, and
`jobs/{id}/output.musicxml`. -/
structure Bucket where
  metadata : Option WMeta
  metadataDecodable : Bool
  inputExists : Bool
  output : Option String
deriving DecidableEq, Repr

/-- Collaborator oracle for the worker services: the outcome of
`annoteator.transcribe_audio` (result path, or the raised error text),
and whether the returned result path exists on disk (checked only by
`worker_local.py`). -/
structure WEnv where
  transcribe : Except String String
  resultExists : Bool

/-- `if error:` truthiness in `update_job_status`: the error key is set
only when the error argument is a non-empty string. -/
def applyError (m : WMeta) (error : Option String) : WMeta :=
  match error with
  | none => m
  | some e => if e = "" then m else { m with error := some e }

/-- The new descriptor dict built by `update_job_status`: start from the
stored dict when the blob exists (raising, i.e. `Except.error`, when its
text is undecodable) or from `{"job_id": job_id}` otherwise, then set
`status`, `progress` and (if truthy) `error`. -/
def updateMeta (b : Bucket) (job_id status : String) (progress : Int)
    (error : Option String) : Except String WMeta :=
  match b.metadata with
  | some meta =>
    if b.metadataDecodable then
      .ok (applyError
        { meta with status := some status, progress := some progress }
        error)
    else
      .error "Expecting value: line 1 column 1 (char 0)"
  | none =>
    .ok (applyError
      { job_id := job_id, filename := none, status := some status,
        progress := some progress, error := none }
      error)

/-- `update_job_status`: upload the rebuilt descriptor to
`jobs/{id}/metadata.json` (which makes it decodable from then on). -/
def update_job_status (b : Bucket) (job_id status : String)
    (progress : Int) (error : Option String := none) :
    Except String Bucket :=
  (updateMeta b job_id status progress error).map fun jd =>
    { b with metadata := some jd, metadataDecodable := true }

/-- Observable state of one `worker.process_job` run: the bucket, the
descriptor snapshots successfully uploaded (in order), and the number of
`transcribe_audio` invocations. -/
structure WSt where
  bucket : Bucket
  writes : List WMeta
  calls : Nat
deriving DecidableEq, Repr

/-- One `update_job_status` call inside the `try` body: on success the
write is recorded; on a raise the state reached so far travels with the
exception. -/
def stUpdate (s : WSt) (job_id status : String) (progress : Int)
    (error : Option String := none) : Except (String × WSt) WSt :=
  match updateMeta s.bucket job_id status progress error with
  | .ok jd =>
    .ok { s with
            bucket :=
              { s.bucket with metadata := some jd, metadataDecodable := true }
            writes := s.writes ++ [jd] }
  | .error e => .error (e, s)

/-- The `try` body of `worker.process_job`, after the terminal-status
skip check: update to processing/10, require the input blob, two more
processing/30 checkpoints (the metadata re-fetch for the song title
cannot raise here, because the preceding successful status upload made
the blob decodable), call the transcription collaborator, upload the
output artifact, then processing/90 and completed/100. -/
def process_job_try (env : WEnv) (s0 : WSt) (job_id : String) :
    Except (String × WSt) WSt :=
  match stUpdate s0 job_id "processing" 10 with
  | .error r => .error r
  | .ok s =>
    if s.bucket.inputExists = false then
      .error ("Input file not found for job " ++ job_id, s)
    else
      match stUpdate s job_id "processing" 30 with
      | .error r => .error r
      | .ok s =>
        match stUpdate s job_id "processing" 30 with
        | .error r => .error r
        | .ok s =>
          let s : WSt := { s with calls := s.calls + 1 }
          match env.transcribe with
          | .error e => .error (e, s)
          | .ok result_path =>
            match stUpdate s job_id "processing" 90 with
            | .error r => .error r
            | .ok s =>
              let s : WSt :=
                { s with
                    bucket := { s.bucket with output := some result_path } }
              stUpdate s job_id "completed" 100

/-- `worker.process_job` minus the duplicate-delivery guard: terminal
stored status short-circuits with no effect; otherwise run the `try`
body, and on an exception best-effort write failed/0 with the error text
(itself swallowing any raise from `update_job_status`). -/
def process_job_body (env : WEnv) (b : Bucket) (job_id : String) : WSt :=
  let s0 : WSt := { bucket := b, writes := [], calls := 0 }
  let skip : Bool :=
    match b.metadata with
    | some meta =>
      b.metadataDecodable &&
        (meta.status.getD "" = "completed" || meta.status.getD "" = "failed")
    | none => false
  if skip then s0
  else
    match process_job_try env s0 job_id with
    | .ok s => s
    | .error (e, s) =>
      match updateMeta s.bucket job_id "failed" 0 (some e) with
      | .ok jd =>
        { s with
            bucket :=
              { s.bucket with metadata := some jd, metadataDecodable := true }
            writes := s.writes ++ [jd] }
      | .error _ => s

/-- Result of `worker.process_job` including the in-process
"currently processing" dedup set (which the `finally` block restores to
its pre-call contents). -/
structure WRun where
  st : WSt
  processing : List String
deriving DecidableEq, Repr

/-- `worker.process_job`: drop the call with no effect when `job_id` is
already in the in-process set; otherwise add it, run the body, and
discard it again in `finally`. -/
def process_job (env : WEnv) (processing : List String) (b : Bucket)
    (job_id : String) : WRun :=
  if processing.contains job_id then
    { st := { bucket := b, writes := [], calls := 0 },
      processing := processing }
  else
    { st := process_job_body env b job_id, processing := processing }

/-- An incoming Pub/Sub message as seen by `callback`: its payload either
fails `json.loads` (undecodable), decodes but lacks the `job_id`/`bucket`
keys (a `KeyError`, which is not a `json.JSONDecodeError`), or is a
well-formed `{job_id, bucket}` payload. -/
inductive Message
  | undecodable
  | missing_keys
  | payload (job_id : String) (bucket_name : String)
deriving DecidableEq, Repr

/-- Broker acknowledgement decision. -/
inductive AckAction
  | ack
  | nack
deriving DecidableEq, Repr

/-- Result of one `callback` invocation. -/
structure CallbackRun where
  action : AckAction
  run : WRun
deriving DecidableEq, Repr

/-- `worker.callback`: undecodable payloads are acked immediately;
a decodable payload missing its keys raises `KeyError`, caught by the
generic handler, which nacks; a well-formed payload is processed by
`process_job` (which never raises — it converts every processing
exception into a Failed record internally) and the message is then
acked. -/
def callback (env : WEnv) (processing : List String) (b : Bucket)
    (msg : Message) : CallbackRun :=
  match msg with
  | .undecodable =>
    { action := .ack,
      run := { st := { bucket := b, writes := [], calls := 0 },
               processing := processing } }
  | .missing_keys =>
    { action := .nack,
      run := { st := { bucket := b, writes := [], calls := 0 },
               processing := processing } }
  | .payload job_id _ =>
    { action := .ack, run := process_job env processing b job_id }

end Worker

namespace WorkerLocal

/-- The local job directory's `metadata.json` dict.  (The main polling
loop only dispatches a directory once both `metadata.json` and
`input.mp3` exist, so the descriptor is present here.) -/
structure LMeta where
  filename : Option String
  status : Option String
  progress : Option Int
  error : Option String
deriving DecidableEq, Repr

/-- One local job directory: the descriptor and the
`output.musicxml` artifact (present or not, with its content ref). -/
structure LocalJob where
  meta : LMeta
  output : Option String
deriving DecidableEq, Repr

/-- Result of one `worker_local.process_job` run: final directory state,
the descriptor snapshots written (in order), and the number of
`transcribe_audio` invocations. -/
structure LRun where
  job : LocalJob
  writes : List LMeta
  calls : Nat
deriving DecidableEq, Repr

/-- `worker_local.process_job`: skip when the output artifact already
exists; skip when the stored status is not `queued`/`processing`;
otherwise write processing/10, progress 30, call the transcription
collaborator, write progress 90, copy the result to the output path when
it exists (completed/100), and on any raise write `failed` with the
error text (keeping the current progress). -/
def process_job (env : Worker.WEnv) (j : LocalJob) : LRun :=
  if j.output.isSome then
    { job := j, writes := [], calls := 0 }
  else
    let stval := j.meta.status.getD ""
    if stval ≠ "queued" ∧ stval ≠ "processing" then
      { job := j, writes := [], calls := 0 }
    else
      let m1 : LMeta :=
        { j.meta with
            status := some "processing"
            progress := some 10 }
      let m2 : LMeta := { m1 with progress := some 30 }
      let writes := [m1, m2]
      match env.transcribe with
      | .error e =>
        let mf : LMeta :=
          { m2 with
              status := some "failed"
              error := some e }
        { job := { j with meta := mf }, writes := writes ++ [mf],
          calls := 1 }
      | .ok result_path =>
        let m3 : LMeta := { m2 with progress := some 90 }
        let writes := writes ++ [m3]
        if result_path ≠ "" ∧ env.resultExists then
          let m4 : LMeta :=
            { m3 with
                status := some "completed"
                progress := some 100 }
          { job := { j with meta := m4, output := some result_path },
            writes := writes ++ [m4], calls := 1 }
        else
          let mf : LMeta :=
            { m3 with
                status := some "failed"
                error := some "Processing did not produce output file" }
          { job := { j with meta := mf }, writes := writes ++ [mf],
            calls := 1 }

end WorkerLocal

/-! ## Shared concrete instances used by witnesses and counterexamples -/

/-- A backend environment where every collaborator call succeeds, every
save persists, cleanup is configured on and the input file exists. -/
def envAllOk : Backend.Env :=
  { models_ready := true
    separate_drums := .ok "drums.wav"
    transcribe_drums := .ok "drums.mid"
    midi_to_musicxml := .ok "drum_sheet.musicxml"
    cleanup_after_processing := true
    input_exists := true
    save_ok := fun _ => true }

/-- The scenario job of the spec: a job created for file `track.mp3`. -/
def trackJob : Backend.ProcessingJob :=
  Backend.mkProcessingJob "job-1" "track.mp3" "/uploads/track.mp3" 0

/-- A queued worker-service job whose descriptor and input blob exist. -/
def bucketQueued : Worker.Bucket :=
  { metadata := some
      { job_id := "job-1", filename := some "track.mp3",
        status := some "queued", progress := some 0, error := none }
    metadataDecodable := true
    inputExists := true
    output := none }

/-- A worker environment whose transcription call succeeds. -/
def wEnvOk : Worker.WEnv :=
  { transcribe := .ok "out.musicxml", resultExists := true }

/-- A worker environment whose transcription call raises `boom`. -/
def wEnvBoom : Worker.WEnv :=
  { transcribe := .error "boom", resultExists := true }

/-! ## Claim C10 — JobStore round-trip -/

/-- A concrete stored record whose `updated_at` differs from the time of
the save. -/
def c10Dict : Storage.JobDict :=
  { job_id := "job-1"
    filename := "track.mp3"
    file_path := "/uploads/track.mp3"
    status := "pending"
    progress := 0
    message := "Job created"
    created_at := 0
    updated_at := 0
    result := none
    error := none }

/-- An empty local-backend `JobStorage`. -/
def c10LocalStore : Storage.JobStorage :=
  { use_cloud_storage := false, bucket := [], localFiles := [],
    storage_dir := "./jobs" }

/-- Claim C10 counterexample: saving a record whose `updated_at` is `0`
at save time `1` and loading it back does not return the original
record — `save_job` re-stamps `updated_at` before persisting, so the
loaded record differs from the original exactly in that field. -/
theorem claim_c10_counterexample :
    Storage.load_job (Storage.save_job c10LocalStore "job-1" c10Dict 1).1
        "job-1" ≠ some c10Dict ∧
    Storage.load_job (Storage.save_job c10LocalStore "job-1" c10Dict 1).1
        "job-1" = some { c10Dict with updated_at := 1 } := by
  decide

/-- Claim C10 (amended): a JobRecord written via `JobStorage.save_job`
and read back via `JobStorage.load_job` is field-for-field equal to the
original on every field except `updated_at`, which `save_job` re-stamps
with the save-time timestamp (since `save_job` mutates the passed dict
in place, this is exactly the record the caller holds once `save_job`
returns); this holds on both the local-filesystem backend and the
remote object-store backend (`use_cloud_storage` arbitrary), `save_job`
reports success, and the `to_dict`/`from_dict` dictionary conversion
itself is lossless. -/
theorem claim_c10_amended (st : Storage.JobStorage) (id : String)
    (d : Storage.JobDict) (now : Nat) (j : Backend.ProcessingJob) :
    Storage.load_job (Storage.save_job st id d now).1 id =
      some { d with updated_at := now } ∧
    (Storage.save_job st id d now).2 = true ∧
    Storage.from_dict (Storage.to_dict j) = some j := by
  have hkv : ∀ (m : List (String × Storage.JobDict)) (k : String)
      (v : Storage.JobDict), Storage.getKV (Storage.putKV m k v) k = some v := by
    intro m k v
    simp [Storage.getKV, Storage.putKV, List.find?_cons_of_pos]
  refine ⟨?_, ?_, ?_⟩
  · rcases st with ⟨flag, bucket, files, dir⟩
    cases flag <;>
      simp [Storage.save_job, Storage.load_job, Storage.get_job_key,
        Storage.get_local_path, hkv]
  · rcases st with ⟨flag, bucket, files, dir⟩
    cases flag <;> simp [Storage.save_job]
  · rcases j with ⟨jid, fn, fp, st', pr, msg, ca, ua, res, err⟩
    cases st' <;>
      simp [Storage.from_dict, Storage.to_dict, Backend.statusValue,
        Backend.statusOfString, Backend.mkProcessingJob]

/-! ## Claim C1 — creation / checkpoint / failure scenario -/

/-- Claim C1: a newly created job has status `Pending` and progress `0`
before any worker picks it up; when the Separating collaborator call
succeeds and all saves persist, the Transcribing checkpoint persisted
after it has status `Transcribing` and progress `50`; and when the
Transcribing collaborator call then raises (with non-empty text `e`),
the final persisted state has status `Failed`, progress still `50`, a
non-empty `error`, and no `result`. -/
theorem claim_c1 (id fn fp p e : String) (t c : Nat) (env : Backend.Env)
    (hm : env.models_ready = true)
    (hs : env.separate_drums = Except.ok p)
    (ht : env.transcribe_drums = Except.error e)
    (he : e ≠ "")
    (hsv : env.save_ok = fun _ => true) :
    (Backend.mkProcessingJob id fn fp t).status =
      Backend.ProcessingStatus.pending ∧
    (Backend.mkProcessingJob id fn fp t).progress = 0 ∧
    ((Backend.process_job env (Backend.mkProcessingJob id fn fp t)
        c).persisted.map fun j => (j.status, j.progress)) =
      [(Backend.ProcessingStatus.separating, 10),
       (Backend.ProcessingStatus.separating, 40),
       (Backend.ProcessingStatus.transcribing, 50),
       (Backend.ProcessingStatus.failed, 50)] ∧
    ∃ jl,
      (Backend.process_job env (Backend.mkProcessingJob id fn fp t)
          c).persisted.getLast? = some jl ∧
      jl.status = Backend.ProcessingStatus.failed ∧ jl.progress = 50 ∧
      jl.error = some e ∧ jl.error ≠ some "" ∧ jl.result = none := by
  rcases env with ⟨mr, sep, tr, mx, cl, ie, sv⟩
  subst hm; subst hs; subst ht; subst hsv
  cases ie <;>
    exact ⟨rfl, rfl, rfl, _, rfl, rfl, rfl, rfl,
      fun hcon => he (Option.some.inj hcon), rfl⟩

/-- Backend environment for the C1 scenario: separation succeeds, the
transcription collaborator raises `boom`. -/
def c1Env : Backend.Env :=
  { envAllOk with transcribe_drums := .error "boom" }

/-- Witness for C1 at a concrete input. -/
theorem claim_c1_witness :
    (Backend.mkProcessingJob "job-1" "track.mp3" "/uploads/track.mp3"
        0).status = Backend.ProcessingStatus.pending ∧
    (Backend.mkProcessingJob "job-1" "track.mp3" "/uploads/track.mp3"
        0).progress = 0 ∧
    ((Backend.process_job c1Env
        (Backend.mkProcessingJob "job-1" "track.mp3" "/uploads/track.mp3"
          0) 1).persisted.map fun j => (j.status, j.progress)) =
      [(Backend.ProcessingStatus.separating, 10),
       (Backend.ProcessingStatus.separating, 40),
       (Backend.ProcessingStatus.transcribing, 50),
       (Backend.ProcessingStatus.failed, 50)] ∧
    ∃ jl,
      (Backend.process_job c1Env
          (Backend.mkProcessingJob "job-1" "track.mp3" "/uploads/track.mp3"
            0) 1).persisted.getLast? = some jl ∧
      jl.status = Backend.ProcessingStatus.failed ∧ jl.progress = 50 ∧
      jl.error = some "boom" ∧ jl.error ≠ some "" ∧ jl.result = none :=
  claim_c1 "job-1" "track.mp3" "/uploads/track.mp3" "drums.wav" "boom"
    0 1 c1Env rfl rfl rfl (by decide) rfl

/-! ## Claim C5 — input cleanup on reaching a terminal state -/

/-- Backend environment with the cleanup policy flag off. -/
def c5Env : Backend.Env :=
  { envAllOk with cleanup_after_processing := false }

/-- Claim C5 counterexample: with `CLEANUP_AFTER_PROCESSING = False` a
successful run reaches the terminal state `Completed` yet the original
input file is not removed — input cleanup is not unconditional on
success, unlike on failure. -/
theorem claim_c5_counterexample :
    (Backend.process_job c5Env trackJob 1).job.status =
      Backend.ProcessingStatus.completed ∧
    (Backend.process_job c5Env trackJob 1).inputRemoved = false := by
  decide

/-- Claim C5 (amended): when the input file exists, a run that ends
`Failed` always removes it, while a run that ends `Completed` removes it
exactly when the `CLEANUP_AFTER_PROCESSING` policy flag is set — the
cleanup is unconditional only on the failure path. -/
theorem claim_c5_amended (env : Backend.Env)
    (job : Backend.ProcessingJob) (c : Nat)
    (hin : env.input_exists = true) :
    ((Backend.process_job env job c).job.status =
        Backend.ProcessingStatus.failed →
      (Backend.process_job env job c).inputRemoved = true) ∧
    ((Backend.process_job env job c).job.status =
        Backend.ProcessingStatus.completed →
      (Backend.process_job env job c).inputRemoved =
        env.cleanup_after_processing) := by
  rcases env with ⟨mr, sep, tr, mx, cl, ie, sv⟩
  subst hin
  cases mr <;> cases sep <;> cases tr <;> cases mx <;> cases cl <;>
    simp [Backend.process_job, Backend.save_job_state, Backend.fail_job]

/-- Witness for C5 (amended) at a concrete input: the scenario of the
counterexample, seen from the amended side. -/
theorem claim_c5_witness :
    (Backend.process_job c5Env trackJob 1).inputRemoved = false :=
  (claim_c5_amended c5Env trackJob 1 rfl).2 (by decide)

/-! ## Claim C6 — behavior on persistence failure -/

/-- Backend environment in which every `save_job` call fails (returns
`false`). -/
def c6Env : Backend.Env :=
  { envAllOk with save_ok := fun _ => false }

/-- Claim C6 counterexample: with persistence failing on every save, the
executor still invokes all three collaborators and drives the in-memory
job to `Completed`, persisting nothing — the failed `save_job` return is
ignored, no error is surfaced, and the pipeline advances past every
unpersisted point. -/
theorem claim_c6_counterexample :
    (Backend.process_job c6Env trackJob 1).persisted = [] ∧
    (Backend.process_job c6Env trackJob 1).calls =
      ["separate_drums", "transcribe_drums", "midi_to_musicxml"] ∧
    (Backend.process_job c6Env trackJob 1).job.status =
      Backend.ProcessingStatus.completed := by
  decide

/-- Claim C6 (amended): `JobStorage.save_job` reports failure by
returning `false` without raising, and `_save_job_state` discards that
return value, so the executor's behavior — the final in-memory job, the
collaborator calls made, the snapshots it attempts to persist, and the
input-cleanup decision — is entirely independent of the save outcomes;
a failed save only leaves the job's durable state at its last
successfully persisted snapshot. -/
theorem claim_c6_amended (env : Backend.Env) (f g : Nat → Bool)
    (job : Backend.ProcessingJob) (c : Nat) :
    (Backend.process_job { env with save_ok := f } job c).job =
      (Backend.process_job { env with save_ok := g } job c).job ∧
    (Backend.process_job { env with save_ok := f } job c).calls =
      (Backend.process_job { env with save_ok := g } job c).calls ∧
    (Backend.process_job { env with save_ok := f } job c).attempted =
      (Backend.process_job { env with save_ok := g } job c).attempted ∧
    (Backend.process_job { env with save_ok := f } job c).inputRemoved =
      (Backend.process_job { env with save_ok := g } job c).inputRemoved := by
  rcases env with ⟨mr, sep, tr, mx, cl, ie, sv⟩
  cases mr <;> cases sep <;> cases tr <;> cases mx <;> cases cl <;>
    cases ie <;>
    simp [Backend.process_job, Backend.save_job_state, Backend.fail_job]

/-! ## Claim C2 — progress monotonicity and the progress-100 criterion -/

/-- The backend transition trace: the freshly started job followed by
the (status, progress) of every state the executor hands to
`save_job_state`, in order. -/
def btrace (env : Backend.Env) (job : Backend.ProcessingJob) (c : Nat) :
    List (Backend.ProcessingStatus × Int) :=
  (job :: (Backend.process_job env job c).attempted).map fun j =>
    (j.status, j.progress)

/-- The worker-service transition trace: the (status, progress) of every
descriptor state the run uploads, in order. -/
def wtrace (env : Worker.WEnv) (processing : List String)
    (b : Worker.Bucket) (id : String) : List (String × Int) :=
  (Worker.process_job env processing b id).st.writes.map fun m =>
    (m.status.getD "", m.progress.getD 0)

/-- The worker-service run writes exactly one of four status/progress
traces: nothing (duplicate, terminal or undecodable-descriptor skip),
processing then failed-with-progress-0 (missing input), three processing
checkpoints then failed-with-progress-0 (transcription raise), or the
full successful trace ending completed/100. -/
theorem wtrace_cases (env : Worker.WEnv) (processing : List String)
    (b : Worker.Bucket) (id : String) :
    wtrace env processing b id = [] ∨
    wtrace env processing b id =
      [("processing", 10), ("failed", 0)] ∨
    wtrace env processing b id =
      [("processing", 10), ("processing", 30), ("processing", 30),
       ("failed", 0)] ∨
    wtrace env processing b id =
      [("processing", 10), ("processing", 30), ("processing", 30),
       ("processing", 90), ("completed", 100)] := by
  rcases b with ⟨meta, dec, inp, out⟩
  rcases env with ⟨tr, rex⟩
  by_cases hmem : id ∈ processing
  · left
    simp [wtrace, Worker.process_job, hmem]
  · rcases meta with _ | m
    · -- no descriptor: it is created on the first status write
      cases inp
      · -- input blob missing: processing/10 then failed/0
        right; left
        by_cases hmsg : "Input file not found for job " ++ id = "" <;>
          simp [wtrace, Worker.process_job, hmem,
            Worker.process_job_body, Worker.process_job_try,
            Worker.stUpdate, Worker.updateMeta, Worker.applyError, hmsg]
      · cases tr with
        | error e =>
          right; right; left
          by_cases he : e = "" <;>
            simp [wtrace, Worker.process_job, hmem,
              Worker.process_job_body, Worker.process_job_try,
              Worker.stUpdate, Worker.updateMeta, Worker.applyError, he]
        | ok p =>
          right; right; right
          simp [wtrace, Worker.process_job, hmem,
            Worker.process_job_body, Worker.process_job_try,
            Worker.stUpdate, Worker.updateMeta, Worker.applyError]
    · cases dec
      · -- descriptor exists but is undecodable: every upload raises
        left
        simp [wtrace, Worker.process_job, hmem, Worker.process_job_body,
          Worker.process_job_try, Worker.stUpdate, Worker.updateMeta]
      · by_cases h1 : m.status.getD "" = "completed"
        · left
          simp [wtrace, Worker.process_job, hmem,
            Worker.process_job_body, h1]
        · by_cases h2 : m.status.getD "" = "failed"
          · left
            simp [wtrace, Worker.process_job, hmem,
              Worker.process_job_body, h2]
          · cases inp
            · right; left
              by_cases hmsg : "Input file not found for job " ++ id = "" <;>
                simp [wtrace, Worker.process_job, hmem,
                  Worker.process_job_body, Worker.process_job_try,
                  Worker.stUpdate, Worker.updateMeta, Worker.applyError,
                  h1, h2, hmsg]
            · cases tr with
              | error e =>
                right; right; left
                by_cases he : e = "" <;>
                  simp [wtrace, Worker.process_job, hmem,
                    Worker.process_job_body, Worker.process_job_try,
                    Worker.stUpdate, Worker.updateMeta,
                    Worker.applyError, h1, h2, he]
              | ok p =>
                right; right; right
                simp [wtrace, Worker.process_job, hmem,
                  Worker.process_job_body, Worker.process_job_try,
                  Worker.stUpdate, Worker.updateMeta,
                  Worker.applyError, h1, h2]

/-- The backend executor writes exactly one of five status/progress
traces for a freshly created job, one per failure point (models not
ready, each of the three collaborator calls) plus the successful one;
every failure keeps the progress reached so far. -/
theorem btrace_cases (env : Backend.Env) (id fn fp : String)
    (t c : Nat) :
    btrace env (Backend.mkProcessingJob id fn fp t) c =
      [(Backend.ProcessingStatus.pending, 0),
       (Backend.ProcessingStatus.failed, 0)] ∨
    btrace env (Backend.mkProcessingJob id fn fp t) c =
      [(Backend.ProcessingStatus.pending, 0),
       (Backend.ProcessingStatus.separating, 10),
       (Backend.ProcessingStatus.failed, 10)] ∨
    btrace env (Backend.mkProcessingJob id fn fp t) c =
      [(Backend.ProcessingStatus.pending, 0),
       (Backend.ProcessingStatus.separating, 10),
       (Backend.ProcessingStatus.separating, 40),
       (Backend.ProcessingStatus.transcribing, 50),
       (Backend.ProcessingStatus.failed, 50)] ∨
    btrace env (Backend.mkProcessingJob id fn fp t) c =
      [(Backend.ProcessingStatus.pending, 0),
       (Backend.ProcessingStatus.separating, 10),
       (Backend.ProcessingStatus.separating, 40),
       (Backend.ProcessingStatus.transcribing, 50),
       (Backend.ProcessingStatus.transcribing, 70),
       (Backend.ProcessingStatus.generating_sheet, 80),
       (Backend.ProcessingStatus.failed, 80)] ∨
    btrace env (Backend.mkProcessingJob id fn fp t) c =
      [(Backend.ProcessingStatus.pending, 0),
       (Backend.ProcessingStatus.separating, 10),
       (Backend.ProcessingStatus.separating, 40),
       (Backend.ProcessingStatus.transcribing, 50),
       (Backend.ProcessingStatus.transcribing, 70),
       (Backend.ProcessingStatus.generating_sheet, 80),
       (Backend.ProcessingStatus.generating_sheet, 95),
       (Backend.ProcessingStatus.completed, 100)] := by
  rcases env with ⟨mr, sep, tr, mx, cl, ie, sv⟩
  cases mr <;> cases sep <;> cases tr <;> cases mx <;> cases cl <;>
    cases ie <;>
    first
      | exact Or.inl rfl
      | exact Or.inr (Or.inl rfl)
      | exact Or.inr (Or.inr (Or.inl rfl))
      | exact Or.inr (Or.inr (Or.inr (Or.inl rfl)))
      | exact Or.inr (Or.inr (Or.inr (Or.inr rfl)))

/-- Claim C2 counterexample: in the worker service, when the
transcription collaborator raises after the progress-30 checkpoints, the
pipeline performs the transition processing/30 → failed/0 — progress
decreases from 30 to 0 on a transition performed by the pipeline, so the
monotonicity half of the claim is false on this concrete run. -/
theorem claim_c2_counterexample :
    wtrace wEnvBoom [] bucketQueued "job-1" =
      [("processing", 10), ("processing", 30), ("processing", 30),
       ("failed", 0)] ∧
    ¬ List.Chain' (fun a b : String × Int => a.2 ≤ b.2)
        (wtrace wEnvBoom [] bucketQueued "job-1") := by
  have h : wtrace wEnvBoom [] bucketQueued "job-1" =
      [("processing", 10), ("processing", 30), ("processing", 30),
       ("failed", 0)] := rfl
  rw [h]
  exact ⟨rfl, by simp [List.chain'_cons]⟩

/-- Claim C2 (amended): progress equals 100 exactly on `Completed`
states in both pipelines, and progress is non-decreasing along every
transition performed by the pipeline except the worker-service failure
transition, which resets progress to 0 (the backend failure transition
keeps the previous progress, so the backend trace is fully monotone). -/
theorem claim_c2_amended :
    (∀ (env : Backend.Env) (id fn fp : String) (t c : Nat),
      List.Chain' (fun a b : Backend.ProcessingStatus × Int => a.2 ≤ b.2)
        (btrace env (Backend.mkProcessingJob id fn fp t) c) ∧
      ∀ q ∈ btrace env (Backend.mkProcessingJob id fn fp t) c,
        (q.2 = 100 ↔ q.1 = Backend.ProcessingStatus.completed)) ∧
    (∀ (env : Worker.WEnv) (processing : List String)
        (b : Worker.Bucket) (id : String),
      List.Chain'
        (fun a b : String × Int =>
          a.2 ≤ b.2 ∨ (b.1 = "failed" ∧ b.2 = 0))
        (wtrace env processing b id) ∧
      ∀ q ∈ wtrace env processing b id,
        (q.2 = 100 ↔ q.1 = "completed")) := by
  constructor
  · intro env id fn fp t c
    rcases btrace_cases env id fn fp t c with h | h | h | h | h <;>
      rw [h] <;> constructor <;>
      simp [List.chain'_cons, List.forall_mem_cons]
  · intro env processing b id
    rcases wtrace_cases env processing b id with h | h | h | h <;>
      rw [h] <;> constructor <;>
      simp [List.chain'_cons, List.forall_mem_cons]

/-- Witness for C2 (amended) at concrete inputs: the fully successful
backend trace is monotone; its completed element satisfies the
progress-100 criterion; the failing worker trace satisfies the amended
chain; and its failed/0 element satisfies the progress-100 criterion. -/
theorem claim_c2_witness :
    List.Chain' (fun a b : Backend.ProcessingStatus × Int => a.2 ≤ b.2)
      (btrace envAllOk
        (Backend.mkProcessingJob "job-1" "track.mp3" "/uploads/track.mp3"
          0) 1) ∧
    ((100 : Int) = 100 ↔
      Backend.ProcessingStatus.completed =
        Backend.ProcessingStatus.completed) ∧
    List.Chain'
      (fun a b : String × Int => a.2 ≤ b.2 ∨ (b.1 = "failed" ∧ b.2 = 0))
      (wtrace wEnvBoom [] bucketQueued "job-1") ∧
    ((0 : Int) = 100 ↔ "failed" = "completed") :=
  ⟨(claim_c2_amended.1 envAllOk "job-1" "track.mp3" "/uploads/track.mp3"
      0 1).1,
   (claim_c2_amended.1 envAllOk "job-1" "track.mp3" "/uploads/track.mp3"
      0 1).2 (Backend.ProcessingStatus.completed, 100) (by decide),
   (claim_c2_amended.2 wEnvBoom [] bucketQueued "job-1").1,
   (claim_c2_amended.2 wEnvBoom [] bucketQueued "job-1").2
      ("failed", 0) (by decide)⟩

/-! ## Claim C3 — idempotent skip of terminal jobs -/

/-- Claim C3: re-running an adapter's processing entry point on a job
whose stored status is already `completed` or `failed` performs zero
collaborator calls and zero JobRecord mutations — for the broker adapter
via its stored-status check (the bucket is returned untouched, nothing
written), and for the PollAdapter both via the output-artifact check (a
directory whose output artifact already exists is skipped with no call
and no write, so a second scan cycle after a successful run skips it
again) and via the descriptor-status check (a directory with no output
artifact whose descriptor already reports `completed` or `failed` — the
case of every failed poll job — is equally skipped with no call and no
write). -/
theorem claim_c3 :
    (∀ (env : Worker.WEnv) (processing : List String)
        (b : Worker.Bucket) (id : String) (m : Worker.WMeta),
      b.metadata = some m → b.metadataDecodable = true →
      (m.status.getD "" = "completed" ∨ m.status.getD "" = "failed") →
      Worker.process_job env processing b id =
        { st := { bucket := b, writes := [], calls := 0 },
          processing := processing }) ∧
    (∀ (env : Worker.WEnv) (j : WorkerLocal.LocalJob),
      j.output.isSome = true →
      WorkerLocal.process_job env j =
        { job := j, writes := [], calls := 0 }) ∧
    (∀ (env : Worker.WEnv) (j : WorkerLocal.LocalJob),
      j.output = none →
      (j.meta.status.getD "" = "completed" ∨
        j.meta.status.getD "" = "failed") →
      WorkerLocal.process_job env j =
        { job := j, writes := [], calls := 0 }) := by
  refine ⟨?_, ?_, ?_⟩
  · intro env processing b id m hmeta hdec hterm
    rcases b with ⟨meta, dec, inp, out⟩
    cases hmeta
    cases hdec
    by_cases hmem : id ∈ processing
    · simp [Worker.process_job, hmem]
    · rcases hterm with h | h <;>
        simp [Worker.process_job, Worker.process_job_body, hmem, h]
  · intro env j hout
    rcases j with ⟨m, out⟩
    rcases out with _ | v
    · simp at hout
    · simp [WorkerLocal.process_job]
  · intro env j hout hterm
    rcases j with ⟨m, out⟩
    cases hout
    rcases hterm with h | h <;>
      simp [WorkerLocal.process_job, h]

/-- A worker-service job whose stored descriptor already reports
`completed` and whose output artifact exists. -/
def bucketDone : Worker.Bucket :=
  { metadata := some
      { job_id := "job-1", filename := some "track.mp3",
        status := some "completed", progress := some 100, error := none }
    metadataDecodable := true
    inputExists := true
    output := some "out.musicxml" }

/-- A local job directory whose output artifact already exists. -/
def localDone : WorkerLocal.LocalJob :=
  { meta := { filename := some "track.mp3", status := some "completed",
              progress := some 100, error := none }
    output := some "output.musicxml" }

/-- A local job directory whose run failed: the descriptor reports
`failed` and no output artifact was ever produced. -/
def localFailed : WorkerLocal.LocalJob :=
  { meta := { filename := some "track.mp3", status := some "failed",
              progress := some 30, error := some "boom" }
    output := none }

/-- Witness for C3 at concrete inputs: the broker adapter skips an
already-completed job, and the poll adapter skips both a completed job
with its output artifact present and a failed job with no output
artifact, each with no call and no write. -/
theorem claim_c3_witness :
    Worker.process_job wEnvBoom [] bucketDone "job-1" =
      { st := { bucket := bucketDone, writes := [], calls := 0 },
        processing := [] } ∧
    WorkerLocal.process_job wEnvBoom localDone =
      { job := localDone, writes := [], calls := 0 } ∧
    WorkerLocal.process_job wEnvBoom localFailed =
      { job := localFailed, writes := [], calls := 0 } :=
  ⟨claim_c3.1 wEnvBoom [] bucketDone "job-1" _ rfl rfl (Or.inl rfl),
   claim_c3.2.1 wEnvBoom localDone rfl,
   claim_c3.2.2 wEnvBoom localFailed rfl (Or.inr rfl)⟩

/-! ## Claim C4 — in-flight duplicate-delivery deduplication -/

/-- Claim C4: a `process_job` invocation for a `job_id` already present
in the in-process "currently processing" set returns immediately with no
collaborator call and no JobRecord write; so when the same payload is
delivered twice while the first delivery is still in flight (the set
then containing the id), the first delivery invokes the transcription
stage exactly once and the duplicate invokes it zero times — exactly one
stage-executor invocation for that `job_id` in total. -/
theorem claim_c4 (env : Worker.WEnv) (processing : List String)
    (b b2 : Worker.Bucket) (id : String) (m : Worker.WMeta)
    (hmem : id ∉ processing)
    (hmeta : b.metadata = some m) (hdec : b.metadataDecodable = true)
    (h1 : m.status.getD "" ≠ "completed")
    (h2 : m.status.getD "" ≠ "failed")
    (hin : b.inputExists = true) :
    (Worker.process_job env processing b id).st.calls = 1 ∧
    Worker.process_job env (id :: processing) b2 id =
      { st := { bucket := b2, writes := [], calls := 0 },
        processing := id :: processing } := by
  constructor
  · rcases env with ⟨tr, rex⟩
    rcases b with ⟨meta, dec, inp, out⟩
    cases hmeta
    cases hdec
    cases hin
    cases tr <;>
      simp [Worker.process_job, Worker.process_job_body,
        Worker.process_job_try, Worker.stUpdate, Worker.updateMeta,
        Worker.applyError, hmem, h1, h2]
  · simp [Worker.process_job]

/-- Witness for C4 at a concrete input: one invocation on the first
delivery of a queued job, none on the in-flight duplicate. -/
theorem claim_c4_witness :
    (Worker.process_job wEnvOk [] bucketQueued "job-1").st.calls = 1 ∧
    Worker.process_job wEnvOk ["job-1"] bucketQueued "job-1" =
      { st := { bucket := bucketQueued, writes := [], calls := 0 },
        processing := ["job-1"] } :=
  claim_c4 wEnvOk [] bucketQueued bucketQueued "job-1" _
    (by simp) rfl rfl (by decide) (by decide) rfl

/-! ## Claim C7 — ack/nack policy of the broker callback -/

/-- Claim C7 counterexample: a well-formed delivery whose processing
raises (the transcription collaborator throws `boom`) is **acked**, not
nacked — `process_job` converts the processing exception into a Failed
record internally and never re-raises, so the callback's success path
acknowledges the message.  The claim's "on any processing exception it
is nacked" is therefore false on this concrete run. -/
theorem claim_c7_counterexample :
    (Worker.callback wEnvBoom [] bucketQueued
        (Worker.Message.payload "job-1" "groovesheet-bucket")).action =
      Worker.AckAction.ack ∧
    ∃ m,
      (Worker.callback wEnvBoom [] bucketQueued
          (Worker.Message.payload "job-1"
            "groovesheet-bucket")).run.st.bucket.metadata = some m ∧
      m.status = some "failed" :=
  ⟨rfl, _, rfl, rfl⟩

/-- Claim C7 (amended): undecodable messages are acked immediately with
no effect; a decodable payload missing its `job_id`/`bucket` keys raises
`KeyError` in the callback itself and is nacked (redelivered); a
well-formed payload is always acked, whether processing succeeded or
failed — processing exceptions are absorbed by `process_job` into a
Failed record and never trigger a nack. -/
theorem claim_c7_amended (env : Worker.WEnv) (processing : List String)
    (b : Worker.Bucket) :
    (Worker.callback env processing b Worker.Message.undecodable).action =
      Worker.AckAction.ack ∧
    (Worker.callback env processing b
        Worker.Message.undecodable).run.st.bucket = b ∧
    (Worker.callback env processing b
        Worker.Message.undecodable).run.st.writes = [] ∧
    (Worker.callback env processing b Worker.Message.missing_keys).action =
      Worker.AckAction.nack ∧
    (Worker.callback env processing b
        Worker.Message.missing_keys).run.st.bucket = b ∧
    (∀ id bn,
      (Worker.callback env processing b
          (Worker.Message.payload id bn)).action =
        Worker.AckAction.ack) := by
  simp [Worker.callback]

/-! ## Claim C8 — deliveries with a missing descriptor -/

/-- A job slice with no descriptor and no input blob. -/
def emptyBucket : Worker.Bucket :=
  { metadata := none, metadataDecodable := true, inputExists := false,
    output := none }

/-- Claim C8 counterexample: processing a delivery for a job with no
stored descriptor is not dropped — the worker proceeds, creating the
descriptor on its first status write and (the input blob being missing
too) driving the freshly created record to `failed`: two JobRecord
writes where the claim requires zero. -/
theorem claim_c8_counterexample :
    emptyBucket.metadata = none ∧
    (Worker.process_job wEnvOk [] emptyBucket "job-1").st.writes.length =
      2 ∧
    ∃ m,
      (Worker.process_job wEnvOk [] emptyBucket
          "job-1").st.bucket.metadata = some m ∧
      m.status = some "failed" :=
  ⟨rfl, rfl, _, rfl, rfl⟩

/-- Claim C8 (amended): an undecodable payload is acked with no record
created or mutated; but a delivery whose job descriptor is missing is
not dropped — `process_job` proceeds, creates the descriptor on its
first status write, and (when the input blob is missing as well) leaves
a freshly created record driven to `failed` after exactly two writes. -/
theorem claim_c8_amended (env : Worker.WEnv) (processing : List String)
    (b : Worker.Bucket) (id : String)
    (hmeta : b.metadata = none) (hmem : id ∉ processing)
    (hin : b.inputExists = false) :
    ((Worker.callback env processing b Worker.Message.undecodable).action =
        Worker.AckAction.ack ∧
      (Worker.callback env processing b
          Worker.Message.undecodable).run.st.bucket = b ∧
      (Worker.callback env processing b
          Worker.Message.undecodable).run.st.writes = []) ∧
    ((Worker.process_job env processing b id).st.writes.length = 2 ∧
      ∃ f,
        (Worker.process_job env processing b id).st.bucket.metadata =
          some f ∧
        f.status = some "failed") := by
  constructor
  · simp [Worker.callback]
  · rcases b with ⟨meta, dec, inp, out⟩
    cases hmeta
    cases hin
    by_cases hmsg : "Input file not found for job " ++ id = "" <;>
      simp [Worker.process_job, Worker.process_job_body,
        Worker.process_job_try, Worker.stUpdate, Worker.updateMeta,
        Worker.applyError, hmem, hmsg]

/-- Witness for C8 (amended) at a concrete input. -/
theorem claim_c8_witness :
    ((Worker.callback wEnvOk [] emptyBucket
        Worker.Message.undecodable).action = Worker.AckAction.ack ∧
      (Worker.callback wEnvOk [] emptyBucket
          Worker.Message.undecodable).run.st.bucket = emptyBucket ∧
      (Worker.callback wEnvOk [] emptyBucket
          Worker.Message.undecodable).run.st.writes = []) ∧
    ((Worker.process_job wEnvOk [] emptyBucket "job-1").st.writes.length =
        2 ∧
      ∃ f,
        (Worker.process_job wEnvOk [] emptyBucket
            "job-1").st.bucket.metadata = some f ∧
        f.status = some "failed") :=
  claim_c8_amended wEnvOk [] emptyBucket "job-1" rfl (by simp) rfl

/-! ## Claim C9 — exactly one of result/error in a terminal state -/

/-- A worker environment whose transcription call raises with empty
exception text (for example `raise Exception()`). -/
def wEnvEmptyErr : Worker.WEnv :=
  { transcribe := .error "", resultExists := true }

/-- Claim C9 counterexample: in the worker service, a transcription
raise with empty exception text drives the job to `failed` with **no**
error recorded (`update_job_status` only writes the error key for truthy
strings) and no output artifact — a terminal `Failed` job populating
neither `result` nor `error`, contradicting the claim. -/
theorem claim_c9_counterexample :
    ∃ m,
      (Worker.process_job wEnvEmptyErr [] bucketQueued
          "job-1").st.bucket.metadata = some m ∧
      m.status = some "failed" ∧ m.error = none ∧
      (Worker.process_job wEnvEmptyErr [] bucketQueued
          "job-1").st.bucket.output = none :=
  ⟨_, rfl, rfl, rfl, rfl⟩

/-- Claim C9 (amended): in the backend executor a `Completed` job has a
result and no error and a `Failed` job has an error (the exception text,
set unconditionally) and no result; in the worker service a completed
job has its output artifact and no error, while a failed job records the
exception text as its error only when that text is non-empty — with
empty exception text the `Failed` record carries no error at all. -/
theorem claim_c9_amended :
    (∀ (env : Backend.Env) (id fn fp : String) (t c : Nat),
      ((Backend.process_job env (Backend.mkProcessingJob id fn fp t)
            c).job.status = Backend.ProcessingStatus.completed →
        (Backend.process_job env (Backend.mkProcessingJob id fn fp t)
            c).job.result.isSome = true ∧
        (Backend.process_job env (Backend.mkProcessingJob id fn fp t)
            c).job.error = none) ∧
      ((Backend.process_job env (Backend.mkProcessingJob id fn fp t)
            c).job.status = Backend.ProcessingStatus.failed →
        (Backend.process_job env (Backend.mkProcessingJob id fn fp t)
            c).job.error.isSome = true ∧
        (Backend.process_job env (Backend.mkProcessingJob id fn fp t)
            c).job.result = none)) ∧
    (∀ (env : Worker.WEnv) (processing : List String)
        (b : Worker.Bucket) (id : String) (m : Worker.WMeta) (e : String),
      id ∉ processing → b.metadata = some m →
      b.metadataDecodable = true →
      m.status.getD "" ≠ "completed" → m.status.getD "" ≠ "failed" →
      m.error = none → b.inputExists = true → b.output = none →
      env.transcribe = Except.error e →
      ∃ f,
        (Worker.process_job env processing b id).st.bucket.metadata =
          some f ∧
        f.status = some "failed" ∧
        f.error = (if e = "" then none else some e) ∧
        (Worker.process_job env processing b id).st.bucket.output =
          none) ∧
    (∀ (env : Worker.WEnv) (processing : List String)
        (b : Worker.Bucket) (id : String) (m : Worker.WMeta) (p : String),
      id ∉ processing → b.metadata = some m →
      b.metadataDecodable = true →
      m.status.getD "" ≠ "completed" → m.status.getD "" ≠ "failed" →
      m.error = none → b.inputExists = true →
      env.transcribe = Except.ok p →
      ∃ f,
        (Worker.process_job env processing b id).st.bucket.metadata =
          some f ∧
        f.status = some "completed" ∧ f.error = none ∧
        (Worker.process_job env processing b id).st.bucket.output =
          some p) := by
  refine ⟨?_, ?_, ?_⟩
  · intro env id fn fp t c
    rcases env with ⟨mr, sep, tr, mx, cl, ie, sv⟩
    cases mr <;> cases sep <;> cases tr <;> cases mx <;> cases cl <;>
      cases ie <;>
      simp [Backend.process_job, Backend.save_job_state,
        Backend.fail_job, Backend.mkProcessingJob]
  · intro env processing b id m e hmem hmeta hdec h1 h2 herr hin hout htr
    rcases env with ⟨tr, rex⟩
    rcases b with ⟨meta, dec, inp, out⟩
    cases hmeta; cases hdec; cases hin; cases hout; cases htr
    by_cases he : e = "" <;>
      simp [Worker.process_job, Worker.process_job_body,
        Worker.process_job_try, Worker.stUpdate, Worker.updateMeta,
        Worker.applyError, hmem, h1, h2, herr, he]
  · intro env processing b id m p hmem hmeta hdec h1 h2 herr hin htr
    rcases env with ⟨tr, rex⟩
    rcases b with ⟨meta, dec, inp, out⟩
    cases hmeta; cases hdec; cases hin; cases htr
    simp [Worker.process_job, Worker.process_job_body,
      Worker.process_job_try, Worker.stUpdate, Worker.updateMeta,
      Worker.applyError, hmem, h1, h2, herr]

/-- Witness for C9 (amended) at concrete inputs: the successful backend
run (Completed: result, no error), the `boom`-failing worker run
(failed with error `boom`), and the successful worker run (completed,
no error, output present). -/
theorem claim_c9_witness :
    ((Backend.process_job envAllOk
        (Backend.mkProcessingJob "job-1" "track.mp3" "/uploads/track.mp3"
          0) 1).job.result.isSome = true ∧
      (Backend.process_job envAllOk
        (Backend.mkProcessingJob "job-1" "track.mp3" "/uploads/track.mp3"
          0) 1).job.error = none) ∧
    (∃ f,
      (Worker.process_job wEnvBoom [] bucketQueued
          "job-1").st.bucket.metadata = some f ∧
      f.status = some "failed" ∧
      f.error = (if "boom" = "" then none else some "boom") ∧
      (Worker.process_job wEnvBoom [] bucketQueued
          "job-1").st.bucket.output = none) ∧
    (∃ f,
      (Worker.process_job wEnvOk [] bucketQueued
          "job-1").st.bucket.metadata = some f ∧
      f.status = some "completed" ∧ f.error = none ∧
      (Worker.process_job wEnvOk [] bucketQueued
          "job-1").st.bucket.output = some "out.musicxml") :=
  ⟨(claim_c9_amended.1 envAllOk "job-1" "track.mp3" "/uploads/track.mp3"
      0 1).1 rfl,
   claim_c9_amended.2.1 wEnvBoom [] bucketQueued "job-1" _ "boom"
      (by simp) rfl rfl (by decide) (by decide) rfl rfl rfl rfl,
   claim_c9_amended.2.2 wEnvOk [] bucketQueued "job-1" _ "out.musicxml"
      (by simp) rfl rfl (by decide) (by decide) rfl rfl rfl⟩

end GrooveSheet
